import Mathlib

set_option autoImplicit false

/-!
Verification of the orchestration core of `selene-lib` (src/selene-lib/src/lib.rs):
the rule registry and fail-fast construction (`Checker::new`), per-file severity
resolution (`get_lint_severity`), the per-file pipeline (`test_on`), the plugin
subsystem dispatch (`run_plugins`), config-path absolutization and the
`rule_exists` registry query.

The embedding is generic over the types owned by external collaborators
(the syntax tree `Ast`, the bridged tree `LuaAst`, the per-file facts `AstCtx`,
the standard library `StdLib`, the generic config value `V`, and each rule's
config/instance types `C`/`I`): the source is generic over `V` and treats the
others opaquely.  Rust `HashMap`s are modelled as association lists with
first-match lookup; boxed error values are modelled by their message strings;
fallible Rust functions returning `Result` become `Except`.  The bridged-tree
construction (`full_moon_lua_types::Ast::from`) is an effect the spec reasons
about, so `run_plugins` additionally returns the number of times it performs
that conversion (explicit state passing for the one observable effect).
-/

namespace Selene

/-- Modelled from the spec: `Severity` lives in the rules module, which is not
under src/; the spec fixes it as one of Allow, Warning, Error. -/
inductive Severity where
  | Allow
  | Warning
  | Error
  deriving DecidableEq, Repr

/-- Modelled from the spec: a primary-span label (rules module, not under
src/); `Label::new((0, 0))` builds the placeholder location used for synthetic
plugin-failure diagnostics. -/
structure Label where
  position : Nat × Nat
  deriving DecidableEq, Repr

/-- `rules::Label::new`, restricted to the position pair the core uses. -/
def Label.new (position : Nat × Nat) : Label :=
  ⟨position⟩

/-- Modelled from the spec: a `Diagnostic` (rules module, not under src/)
carries the reporting-unit name (`code`), a human message, a primary span and
optional secondary spans/notes; immutable once produced. -/
structure Diagnostic where
  code : String
  message : String
  primary_label : Label
  notes : List String
  secondary_labels : List Label
  deriving DecidableEq, Repr

/-- Modelled from the spec: `rules::Diagnostic::new(code, message,
primary_label)` with no secondary spans or notes. -/
def Diagnostic.new (code : String) (message : String) (primary_label : Label) : Diagnostic :=
  ⟨code, message, primary_label, [], []⟩

/-- `rules::Context`: the standard-library profile plus whether one was
explicitly selected; `Checker::new` builds it as
`Context { standard_library, standard_library_is_set: !config.std.is_empty() }`. -/
structure Context (StdLib : Type) where
  standard_library : StdLib
  standard_library_is_set : Bool
  deriving DecidableEq, Repr

/-- `CheckerError` (src/selene-lib/src/lib.rs, lines 37-50): a construction
failure, carrying the offending rule's name where the source does; the boxed
`dyn Error` payload is modelled as its message string. -/
inductive CheckerError where
  | ConfigDeserializeError (name : String) (problem : String)
  | InvalidPlugin (problem : String)
  | RuleNewError (name : String) (problem : String)
  deriving DecidableEq, Repr

/-- Model of `std::path::PathBuf`: an absoluteness flag plus components. -/
structure FsPath where
  absolute : Bool
  components : List String
  deriving DecidableEq, Repr

/-- Model of `std::path::Path::join`: pushing an absolute path replaces the
base entirely; otherwise the components are appended to the base. -/
def FsPath.join (base : FsPath) (path : FsPath) : FsPath :=
  if path.absolute then path
  else ⟨base.absolute, base.components ++ path.components⟩

/-- Modelled from the spec: `plugins::config::PluginConfig` (plugins module,
not under src/) is a plugin descriptor with a source location plus metadata;
only the `source` field is touched by the core (`absolutize_paths`). -/
structure PluginConfig where
  source : FsPath
  name : String
  deriving DecidableEq, Repr

/-- `RuleVariation` (src/selene-lib/src/lib.rs, lines 107-113): the user
config value for a rule override. -/
inductive RuleVariation where
  | Allow
  | Deny
  | Warn
  deriving DecidableEq, Repr

/-- `RuleVariation::to_severity` (src/selene-lib/src/lib.rs, lines 115-123). -/
def RuleVariation.to_severity : RuleVariation → Severity
  | RuleVariation.Allow => Severity.Allow
  | RuleVariation.Deny => Severity.Error
  | RuleVariation.Warn => Severity.Warning

/-- `RobloxStdSource` (src/selene-lib/src/lib.rs, lines 125-130). -/
inductive RobloxStdSource where
  | Floating
  | Pinned
  deriving DecidableEq, Repr

/-- `impl Default for RobloxStdSource`: `Floating`. -/
instance : Inhabited RobloxStdSource :=
  ⟨RobloxStdSource.Floating⟩

/-- Association-list model of `std::collections::HashMap` lookup (`get`):
the value of the first entry with the given key. -/
def alistLookup {α : Type} (key : String) : List (String × α) → Option α
  | [] => none
  | (k, v) :: rest => if k = key then some v else alistLookup key rest

/-- Association-list model of `HashMap::remove`: the removed value (if any)
together with the map without that entry. -/
def alistRemove {α : Type} (key : String) : List (String × α) → Option α × List (String × α)
  | [] => (none, [])
  | (k, v) :: rest =>
    if k = key then (some v, rest)
    else
      let r := alistRemove key rest
      (r.1, (k, v) :: r.2)

/-- `CheckerConfig<V>` (src/selene-lib/src/lib.rs, lines 71-83): per-check
settings map, plugin descriptor list, name-to-`RuleVariation` override map,
selected standard-library profile name and the Roblox profile-source mode. -/
structure CheckerConfig (V : Type) where
  config : List (String × V)
  plugins : List PluginConfig
  rules : List (String × RuleVariation)
  std : String
  roblox_std_source : RobloxStdSource

/-- `impl Default for CheckerConfig` (src/selene-lib/src/lib.rs, lines 95-105). -/
instance {V : Type} : Inhabited (CheckerConfig V) :=
  ⟨{ config := []
     rules := []
     plugins := []
     std := ""
     roblox_std_source := RobloxStdSource.Floating }⟩

/-- `CheckerConfig::absolutize_paths` (src/selene-lib/src/lib.rs, lines
85-92): joins the base onto every plugin's source (in-place mutation in the
source, modelled as returning the updated configuration). -/
def CheckerConfig.absolutize_paths {V : Type} (self : CheckerConfig V) (base : FsPath) :
    CheckerConfig V :=
  { self with
    plugins := self.plugins.map (fun plugin => { plugin with source := base.join plugin.source }) }

/-- One row of the rule registry, the data the `use_rules!` macro carries per
built-in rule: its name, the `Config` deserializer and default, the `Rule::new`
constructor, the compiled-in `R::SEVERITY`, and `Rule::pass`.  The concrete
rule implementations live in the rules module (not under src/); each is
abstracted by its interface, exactly what the orchestration code consumes. -/
structure RuleDef (V C I Ast AstCtx StdLib : Type) where
  name : String
  config_deserialize : V → Except String C
  config_default : C
  new : C → Except String I
  severity : Severity
  pass : I → Ast → Context StdLib → AstCtx → List Diagnostic

/-- Modelled from the spec: `plugins::LuaPlugin` (plugins module, not under
src/) exposes a namespaced full name, a declared default severity, and a
fallible per-file pass over the bridged tree. -/
structure LuaPlugin (LuaAst AstCtx StdLib : Type) where
  full_name : String
  severity : Severity
  pass : LuaAst → Context StdLib → AstCtx → Except String (List Diagnostic)

/-- The `Checker` struct generated by `use_rules!` (src/selene-lib/src/lib.rs,
lines 166-181): the depleted config, the shared context, the loaded plugins
and one constructed instance per registry rule (the macro stores these as one
struct field per rule, in registry order; modelled as a list in that order). -/
structure Checker (V C I Ast LuaAst AstCtx StdLib : Type) where
  config : CheckerConfig V
  context : Context StdLib
  plugins : List (LuaPlugin LuaAst AstCtx StdLib)
  rules : List (RuleDef V C I Ast AstCtx StdLib × I)

/-- The `rule_field!` macro body (src/selene-lib/src/lib.rs, lines 189-217):
given the entry removed from the config map, deserialize it (a failure becomes
`ConfigDeserializeError` with the rule's name) or fall back to the default
config, then run the rule's constructor (a failure becomes `RuleNewError`
with the rule's name). -/
def rule_field {V C I Ast AstCtx StdLib : Type} (rule : RuleDef V C I Ast AstCtx StdLib)
    (entry : Option V) : Except CheckerError I :=
  match entry with
  | some entry_generic =>
    match rule.config_deserialize entry_generic with
    | Except.error error => Except.error (CheckerError.ConfigDeserializeError rule.name error)
    | Except.ok cfg =>
      match rule.new cfg with
      | Except.error error => Except.error (CheckerError.RuleNewError rule.name error)
      | Except.ok built => Except.ok built
  | none =>
    match rule.new rule.config_default with
    | Except.error error => Except.error (CheckerError.RuleNewError rule.name error)
    | Except.ok built => Except.ok built

/-- The struct-literal part of `Checker::new`: construct every registry rule
in order, each removing its named entry from the per-check config map; the
first failure aborts the whole fold.  Returns the instances in registry order
together with the depleted config map. -/
def build_rules {V C I Ast AstCtx StdLib : Type} :
    List (RuleDef V C I Ast AstCtx StdLib) → List (String × V) →
    Except CheckerError (List (RuleDef V C I Ast AstCtx StdLib × I) × List (String × V))
  | [], cfg => Except.ok ([], cfg)
  | rule :: rest, cfg =>
    let removed := alistRemove rule.name cfg
    match rule_field rule removed.1 with
    | Except.error e => Except.error e
    | Except.ok built =>
      match build_rules rest removed.2 with
      | Except.error e => Except.error e
      | Except.ok r => Except.ok ((rule, built) :: r.1, r.2)

/-- `create_plugins_from_config` (src/selene-lib/src/lib.rs, lines 352-365):
load every configured plugin in declaration order, wrapping the first load
failure as `InvalidPlugin`.  `LuaPlugin::new` lives in the plugins module (not
under src/) and is passed in as `load`. -/
def create_plugins_from_config {LuaAst AstCtx StdLib : Type}
    (load : PluginConfig → Except String (LuaPlugin LuaAst AstCtx StdLib)) :
    List PluginConfig → Except CheckerError (List (LuaPlugin LuaAst AstCtx StdLib))
  | [] => Except.ok []
  | plugin_config :: rest =>
    match load plugin_config with
    | Except.error error => Except.error (CheckerError.InvalidPlugin error)
    | Except.ok plugin =>
      match create_plugins_from_config load rest with
      | Except.error e => Except.error e
      | Except.ok plugins => Except.ok (plugin :: plugins)

/-- `Checker::new` (src/selene-lib/src/lib.rs, lines 185-243): build every
registry rule (fail fast, in registry order, consuming the per-check config
entries), then load the plugins, then assemble the engine; the stored config
retains whatever per-check entries no rule consumed. -/
def Checker.new {V C I Ast LuaAst AstCtx StdLib : Type}
    (registry : List (RuleDef V C I Ast AstCtx StdLib))
    (load : PluginConfig → Except String (LuaPlugin LuaAst AstCtx StdLib))
    (config : CheckerConfig V) (standard_library : StdLib) :
    Except CheckerError (Checker V C I Ast LuaAst AstCtx StdLib) :=
  match build_rules registry config.config with
  | Except.error e => Except.error e
  | Except.ok built =>
    match create_plugins_from_config load config.plugins with
    | Except.error e => Except.error e
    | Except.ok plugins =>
      Except.ok
        { config := { config with config := built.2 }
          context :=
            { standard_library := standard_library
              standard_library_is_set := !(config.std == "") }
          plugins := plugins
          rules := built.1 }

/-- `Checker::get_lint_severity` (src/selene-lib/src/lib.rs, lines 296-301):
the override from the config's rules map if present, else the rule's
compiled-in default (`R::SEVERITY`, passed here explicitly since the source
resolves it by static dispatch). -/
def Checker.get_lint_severity {V C I Ast LuaAst AstCtx StdLib : Type}
    (self : Checker V C I Ast LuaAst AstCtx StdLib) (name : String)
    (default_severity : Severity) : Severity :=
  match alistLookup name self.config.rules with
  | some variation => variation.to_severity
  | none => default_severity

/-- `CheckerDiagnostic` (src/selene-lib/src/lib.rs, lines 367-371). -/
structure CheckerDiagnostic where
  diagnostic : Diagnostic
  severity : Severity
  deriving DecidableEq, Repr

/-- One iteration of the plugin loop in `run_plugins` (src/selene-lib/src/lib.rs,
lines 315-348): on success every returned diagnostic is tagged with the
severity resolved by the plugin's full name (override, else the plugin's
declared default); a runtime failure becomes exactly one synthetic
Error-severity diagnostic at the placeholder location `(0, 0)` whose message
wraps the failure text. -/
def plugin_diagnostic_output {V C I Ast LuaAst AstCtx StdLib : Type}
    (self : Checker V C I Ast LuaAst AstCtx StdLib) (plugin : LuaPlugin LuaAst AstCtx StdLib)
    (lua_ast : LuaAst) (ast_context : AstCtx) : List CheckerDiagnostic :=
  let plugin_name := plugin.full_name
  match plugin.pass lua_ast self.context ast_context with
  | Except.ok plugin_diagnostics =>
    plugin_diagnostics.map (fun diagnostic =>
      { diagnostic := diagnostic
        severity :=
          match alistLookup plugin_name self.config.rules with
          | some variation => variation.to_severity
          | none => plugin.severity })
  | Except.error error =>
    [{ diagnostic :=
        Diagnostic.new plugin_name ("error running plugin: " ++ error) (Label.new (0, 0))
       severity := Severity.Error }]

/-- The `for plugin in &self.plugins` loop of `run_plugins`, appending each
plugin's (tagged or synthetic) diagnostics to the accumulator in declaration
order. -/
def run_plugins_loop {V C I Ast LuaAst AstCtx StdLib : Type}
    (self : Checker V C I Ast LuaAst AstCtx StdLib) (lua_ast : LuaAst) (ast_context : AstCtx) :
    List (LuaPlugin LuaAst AstCtx StdLib) → List CheckerDiagnostic → List CheckerDiagnostic
  | [], diagnostics => diagnostics
  | plugin :: rest, diagnostics =>
    run_plugins_loop self lua_ast ast_context rest
      (diagnostics ++ plugin_diagnostic_output self plugin lua_ast ast_context)

/-- `Checker::run_plugins` (src/selene-lib/src/lib.rs, lines 303-349): an
early return when no plugins are configured, otherwise one bridged-tree
conversion (`full_moon_lua_types::Ast::from`, abstracted as `from_ast`)
shared by every plugin.  The second component counts how many bridged trees
were built, making the conversion effect observable. -/
def Checker.run_plugins {V C I Ast LuaAst AstCtx StdLib : Type}
    (self : Checker V C I Ast LuaAst AstCtx StdLib) (from_ast : Ast → LuaAst)
    (diagnostics : List CheckerDiagnostic) (ast : Ast) (ast_context : AstCtx) :
    List CheckerDiagnostic × Nat :=
  if self.plugins.isEmpty then (diagnostics, 0)
  else
    let lua_ast := from_ast ast
    (run_plugins_loop self lua_ast ast_context self.plugins diagnostics, 1)

/-- The sequence of `check_rule!` expansions inside `test_on`
(src/selene-lib/src/lib.rs, lines 250-279): every rule's `pass` output is
tagged with its resolved severity and appended to the accumulator, in
registry order. -/
def check_rules {V C I Ast LuaAst AstCtx StdLib : Type}
    (self : Checker V C I Ast LuaAst AstCtx StdLib) (ast : Ast) (ast_context : AstCtx) :
    List (RuleDef V C I Ast AstCtx StdLib × I) → List CheckerDiagnostic → List CheckerDiagnostic
  | [], diagnostics => diagnostics
  | (rule, built) :: rest, diagnostics =>
    let rule_pass := rule.pass built ast self.context ast_context
    check_rules self ast ast_context rest
      (diagnostics ++ rule_pass.map (fun diagnostic =>
        { diagnostic := diagnostic
          severity := self.get_lint_severity rule.name rule.severity }))

/-- `Checker::test_on` (src/selene-lib/src/lib.rs, lines 245-290): derive the
per-file facts once (`AstContext::from_ast`, abstracted as `ast_context_of`),
run every built-in rule in registry order, run the plugins, then hand the
merged accumulator to the filtering overlay
(`lint_filtering::filter_diagnostics`, not under src/, abstracted as
`filter_diagnostics`) together with the resolved severity of the
`invalid_lint_filter` unit (whose compiled-in default is passed as
`invalid_lint_filter_severity`). -/
def Checker.test_on {V C I Ast LuaAst AstCtx StdLib : Type}
    (self : Checker V C I Ast LuaAst AstCtx StdLib)
    (from_ast : Ast → LuaAst) (ast_context_of : Ast → AstCtx)
    (filter_diagnostics : Ast → List CheckerDiagnostic → Severity → List CheckerDiagnostic)
    (invalid_lint_filter_severity : Severity) (ast : Ast) : List CheckerDiagnostic :=
  let ast_context := ast_context_of ast
  let diagnostics := check_rules self ast ast_context self.rules []
  let after_plugins := self.run_plugins from_ast diagnostics ast ast_context
  filter_diagnostics ast after_plugins.1
    (self.get_lint_severity "invalid_lint_filter" invalid_lint_filter_severity)

/-- `ALL_RULES` (src/selene-lib/src/lib.rs, lines 151-164 and 377-408): the
registry's rule names in declaration order; the two Roblox rules are present
exactly when the `roblox` feature is compiled in. -/
def ALL_RULES (roblox : Bool) : List String :=
  ["almost_swapped", "bad_string_escape", "compare_nan", "constant_table_comparison",
   "deprecated", "divide_by_zero", "duplicate_keys", "empty_if", "global_usage",
   "if_same_then_else", "ifs_same_cond", "incorrect_standard_library_use",
   "invalid_lint_filter", "mismatched_arg_count", "multiple_statements", "must_use",
   "parenthese_conditions", "shadowing", "suspicious_reverse_loop",
   "type_check_inside_call", "unbalanced_assignments", "undefined_variable",
   "unscoped_variables", "unused_variable"] ++
  (if roblox then ["roblox_incorrect_color3_new_bounds", "roblox_incorrect_roact_usage"] else [])

/-- `rule_exists` (src/selene-lib/src/lib.rs, lines 373-375). -/
def rule_exists (roblox : Bool) (name : String) : Bool :=
  (ALL_RULES roblox).contains name

/-- `.error e` or `none` for `.ok`: the observable failure of a fallible
computation, used to compare construction outcomes. -/
def errorOf {α : Type} : Except CheckerError α → Option CheckerError
  | Except.error e => some e
  | Except.ok _ => none

/-- A concrete registry rule for evaluating the theorems on closed inputs:
it accepts any config, constructs successfully and reports one fixed
diagnostic, with compiled-in default severity Warning. -/
def demoRule : RuleDef Nat Nat Nat Unit Unit Unit :=
  { name := "demo_rule"
    config_deserialize := fun value => Except.ok value
    config_default := 0
    new := fun cfg => Except.ok cfg
    severity := Severity.Warning
    pass := fun _ _ _ _ => [Diagnostic.new "demo_rule" "finding" (Label.new (1, 2))] }

/-- A concrete registry rule whose constructor rejects every config. -/
def demoBadRule : RuleDef Nat Nat Nat Unit Unit Unit :=
  { demoRule with
    name := "demo_bad_rule"
    new := fun _ => Except.error "rejected" }

/-- A concrete plugin whose pass succeeds with one diagnostic. -/
def demoPluginOk : LuaPlugin Unit Unit Unit :=
  { full_name := "demo/ok"
    severity := Severity.Warning
    pass := fun _ _ _ => Except.ok [Diagnostic.new "demo/ok" "plugin finding" (Label.new (3, 4))] }

/-- A concrete plugin whose pass always raises a runtime fault. -/
def demoPluginBad : LuaPlugin Unit Unit Unit :=
  { full_name := "demo/bad"
    severity := Severity.Warning
    pass := fun _ _ _ => Except.error "runtime fault" }

/-- A concrete configuration: one severity override, no per-check settings. -/
def demoConfig : CheckerConfig Nat :=
  { config := []
    plugins := []
    rules := [("demo_rule", RuleVariation.Deny)]
    std := ""
    roblox_std_source := RobloxStdSource.Floating }

/-- A concrete constructed engine: one built-in rule, two plugins. -/
def demoChecker : Checker Nat Nat Nat Unit Unit Unit Unit :=
  { config := demoConfig
    context := { standard_library := (), standard_library_is_set := false }
    plugins := [demoPluginOk, demoPluginBad]
    rules := [(demoRule, 0)] }

/-- The same engine with zero configured plugins. -/
def demoCheckerNoPlugins : Checker Nat Nat Nat Unit Unit Unit Unit :=
  { demoChecker with plugins := [] }

section Lemmas

variable {V C I Ast LuaAst AstCtx StdLib : Type}

theorem alistRemove_fst {α : Type} (key : String) (m : List (String × α)) :
    (alistRemove key m).1 = alistLookup key m := by
  induction m with
  | nil => rfl
  | cons head rest ih =>
    obtain ⟨k, v⟩ := head
    by_cases h : k = key <;> simp [alistRemove, alistLookup, h, ih]

theorem alistRemove_lookup_ne {α : Type} (key other : String) (m : List (String × α))
    (h : other ≠ key) : alistLookup other (alistRemove key m).2 = alistLookup other m := by
  induction m with
  | nil => rfl
  | cons head rest ih =>
    obtain ⟨k, v⟩ := head
    by_cases hk : k = key
    · subst hk
      simp [alistRemove, alistLookup, Ne.symm h]
    · by_cases ho : k = other <;> simp [alistRemove, alistLookup, hk, ho, ih, h]

theorem rule_field_error_shape (rule : RuleDef V C I Ast AstCtx StdLib) (entry : Option V)
    (e : CheckerError) (h : rule_field rule entry = Except.error e) :
    (∃ problem, e = CheckerError.ConfigDeserializeError rule.name problem) ∨
      (∃ problem, e = CheckerError.RuleNewError rule.name problem) := by
  cases entry with
  | none =>
    cases hn : rule.new rule.config_default <;> simp [rule_field, hn] at h
    exact Or.inr ⟨_, h.symm⟩
  | some v =>
    cases hd : rule.config_deserialize v with
    | error problem =>
      simp [rule_field, hd] at h
      exact Or.inl ⟨_, h.symm⟩
    | ok cfg =>
      cases hn : rule.new cfg <;> simp [rule_field, hd, hn] at h
      exact Or.inr ⟨_, h.symm⟩

theorem build_rules_error_of_fail (registry : List (RuleDef V C I Ast AstCtx StdLib))
    (m : List (String × V)) (hnodup : (registry.map (fun r => r.name)).Nodup)
    (rule : RuleDef V C I Ast AstCtx StdLib) (hmem : rule ∈ registry) (efail : CheckerError)
    (hfail : rule_field rule (alistLookup rule.name m) = Except.error efail) :
    ∃ e, build_rules registry m = Except.error e ∧
      ∃ offending ∈ registry,
        rule_field offending (alistLookup offending.name m) = Except.error e := by
  induction registry generalizing m with
  | nil => cases hmem
  | cons head rest ih =>
    have hhead : (alistRemove head.name m).1 = alistLookup head.name m :=
      alistRemove_fst head.name m
    cases hstep : rule_field head (alistLookup head.name m) with
    | error e =>
      refine ⟨e, ?_, head, List.mem_cons_self head rest, hstep⟩
      simp only [build_rules, hhead, hstep]
    | ok built =>
      have hne : rule ∈ rest := by
        rcases List.mem_cons.mp hmem with h | h
        · subst h
          rw [hstep] at hfail
          cases hfail
        · exact h
      have hnames : head.name ∉ rest.map (fun r => r.name) :=
        (List.nodup_cons.mp hnodup).1
      have hrule_ne : rule.name ≠ head.name := by
        intro hcontra
        exact hnames (hcontra ▸ List.mem_map_of_mem (fun r => r.name) hne)
      have hlookup : alistLookup rule.name (alistRemove head.name m).2 =
          alistLookup rule.name m :=
        alistRemove_lookup_ne head.name rule.name m hrule_ne
      obtain ⟨e, hbuild, offending, homem, hofail⟩ :=
        ih (alistRemove head.name m).2 (List.nodup_cons.mp hnodup).2 hne
          (by rw [hlookup]; exact hfail)
      have hoff_ne : offending.name ≠ head.name := by
        intro hcontra
        exact hnames (hcontra ▸ List.mem_map_of_mem (fun r => r.name) homem)
      refine ⟨e, ?_, offending, List.mem_cons_of_mem head homem, ?_⟩
      · simp only [build_rules, hhead, hstep, hbuild]
      · rw [← alistRemove_lookup_ne head.name offending.name m hoff_ne]
        exact hofail

theorem build_rules_cons_unused (registry : List (RuleDef V C I Ast AstCtx StdLib))
    (m : List (String × V)) (key : String) (value : V)
    (h : key ∉ registry.map (fun r => r.name)) :
    build_rules registry ((key, value) :: m) =
      match build_rules registry m with
      | Except.ok out => Except.ok (out.1, (key, value) :: out.2)
      | Except.error e => Except.error e := by
  induction registry generalizing m with
  | nil => rfl
  | cons head rest ih =>
    have hne : key ≠ head.name := by
      intro hcontra
      exact h (hcontra ▸ List.mem_map_of_mem (fun r => r.name) (List.mem_cons_self head rest))
    have hrest : key ∉ rest.map (fun r => r.name) := by
      intro hcontra
      exact h (List.mem_cons_of_mem _ hcontra)
    have hremove : alistRemove head.name ((key, value) :: m) =
        ((alistRemove head.name m).1, (key, value) :: (alistRemove head.name m).2) := by
      simp [alistRemove, hne]
    rw [build_rules, hremove]
    cases hstep : rule_field head (alistRemove head.name m).1 with
    | error e => simp [build_rules, hstep]
    | ok built =>
      simp only
      rw [ih _ hrest]
      conv_rhs => rw [build_rules]
      cases hbuild : build_rules rest (alistRemove head.name m).2 <;> simp [hstep, hbuild]

theorem run_plugins_loop_eq (self : Checker V C I Ast LuaAst AstCtx StdLib)
    (lua_ast : LuaAst) (ast_context : AstCtx) (plugins : List (LuaPlugin LuaAst AstCtx StdLib))
    (diagnostics : List CheckerDiagnostic) :
    run_plugins_loop self lua_ast ast_context plugins diagnostics =
      diagnostics ++ (plugins.map (fun plugin =>
        plugin_diagnostic_output self plugin lua_ast ast_context)).flatten := by
  induction plugins generalizing diagnostics with
  | nil => simp [run_plugins_loop]
  | cons plugin rest ih => simp [run_plugins_loop, ih]

theorem run_plugins_fst_eq (self : Checker V C I Ast LuaAst AstCtx StdLib)
    (from_ast : Ast → LuaAst) (diagnostics : List CheckerDiagnostic) (ast : Ast)
    (ast_context : AstCtx) :
    (self.run_plugins from_ast diagnostics ast ast_context).1 =
      diagnostics ++ (self.plugins.map (fun plugin =>
        plugin_diagnostic_output self plugin (from_ast ast) ast_context)).flatten := by
  unfold Checker.run_plugins
  by_cases h : self.plugins.isEmpty
  · rw [List.isEmpty_iff] at h
    simp [h]
  · simp [h, run_plugins_loop_eq]

theorem check_rules_eq (self : Checker V C I Ast LuaAst AstCtx StdLib) (ast : Ast)
    (ast_context : AstCtx) (rs : List (RuleDef V C I Ast AstCtx StdLib × I))
    (diagnostics : List CheckerDiagnostic) :
    check_rules self ast ast_context rs diagnostics =
      diagnostics ++ (rs.map (fun r =>
        (r.1.pass r.2 ast self.context ast_context).map (fun diagnostic =>
          { diagnostic := diagnostic
            severity := self.get_lint_severity r.1.name r.1.severity }))).flatten := by
  induction rs generalizing diagnostics with
  | nil => simp [check_rules]
  | cons head rest ih =>
    obtain ⟨rule, built⟩ := head
    simp [check_rules, ih]

theorem test_on_eq (self : Checker V C I Ast LuaAst AstCtx StdLib)
    (from_ast : Ast → LuaAst) (ast_context_of : Ast → AstCtx)
    (filter_diagnostics : Ast → List CheckerDiagnostic → Severity → List CheckerDiagnostic)
    (invalid_lint_filter_severity : Severity) (ast : Ast) :
    self.test_on from_ast ast_context_of filter_diagnostics invalid_lint_filter_severity ast =
      filter_diagnostics ast
        ((self.rules.map (fun r =>
            (r.1.pass r.2 ast self.context (ast_context_of ast)).map (fun diagnostic =>
              { diagnostic := diagnostic
                severity := self.get_lint_severity r.1.name r.1.severity }))).flatten ++
          (self.plugins.map (fun plugin =>
            plugin_diagnostic_output self plugin (from_ast ast) (ast_context_of ast))).flatten)
        (self.get_lint_severity "invalid_lint_filter" invalid_lint_filter_severity) := by
  simp only [Checker.test_on, run_plugins_fst_eq, check_rules_eq, List.nil_append]

end Lemmas

section Claims

variable {V C I Ast LuaAst AstCtx StdLib : Type}

/-- C1: if deserializing any registry rule's config entry fails, or any
rule's constructor rejects its resolved config, then `Checker::new` returns
`Except.error` (so no engine value exists) and the error is an offending
rule's own failure: a `ConfigDeserializeError` or `RuleNewError` carrying
that rule's name and the cause. -/
theorem checker_new_fail_fast (registry : List (RuleDef V C I Ast AstCtx StdLib))
    (load : PluginConfig → Except String (LuaPlugin LuaAst AstCtx StdLib))
    (config : CheckerConfig V) (standard_library : StdLib)
    (hnodup : (registry.map (fun r => r.name)).Nodup)
    (rule : RuleDef V C I Ast AstCtx StdLib) (hmem : rule ∈ registry) (efail : CheckerError)
    (hfail : rule_field rule (alistLookup rule.name config.config) = Except.error efail) :
    ∃ offending, offending ∈ registry ∧ ∃ e,
      rule_field offending (alistLookup offending.name config.config) = Except.error e ∧
      Checker.new registry load config standard_library = Except.error e ∧
      ((∃ problem, e = CheckerError.ConfigDeserializeError offending.name problem) ∨
        (∃ problem, e = CheckerError.RuleNewError offending.name problem)) := by
  obtain ⟨e, hbuild, offending, homem, hofail⟩ :=
    build_rules_error_of_fail registry config.config hnodup rule hmem efail hfail
  refine ⟨offending, homem, e, hofail, ?_,
    rule_field_error_shape offending (alistLookup offending.name config.config) e hofail⟩
  simp [Checker.new, hbuild]

theorem checker_new_fail_fast_witness :
    ∃ offending, offending ∈ [demoBadRule] ∧ ∃ e,
      rule_field offending (alistLookup offending.name demoConfig.config) = Except.error e ∧
      Checker.new [demoBadRule] (fun _ => Except.ok demoPluginOk) demoConfig () =
        Except.error e ∧
      ((∃ problem, e = CheckerError.ConfigDeserializeError offending.name problem) ∨
        (∃ problem, e = CheckerError.RuleNewError offending.name problem)) :=
  checker_new_fail_fast [demoBadRule] (fun _ => Except.ok demoPluginOk) demoConfig ()
    (by simp) demoBadRule (List.mem_singleton.mpr rfl)
    (CheckerError.RuleNewError "demo_bad_rule" "rejected") rfl

/-- C2: a runtime failure inside one plugin's execution is converted into
exactly one synthetic diagnostic: Error severity, the plugin's full name as
reporting unit, the placeholder location `(0, 0)`, and a message wrapping the
failure text; the previously accumulated diagnostics and every other
plugin's contribution surround it unchanged. -/
theorem run_plugins_failure_isolated (self : Checker V C I Ast LuaAst AstCtx StdLib)
    (from_ast : Ast → LuaAst) (diagnostics : List CheckerDiagnostic) (ast : Ast)
    (ast_context : AstCtx) (i : Nat) (hi : i < self.plugins.length) (error : String)
    (hfail : (self.plugins.get ⟨i, hi⟩).pass (from_ast ast) self.context ast_context =
      Except.error error) :
    (self.run_plugins from_ast diagnostics ast ast_context).1 =
      diagnostics ++
        ((self.plugins.take i).map (fun plugin =>
          plugin_diagnostic_output self plugin (from_ast ast) ast_context)).flatten ++
        [{ diagnostic := Diagnostic.new (self.plugins.get ⟨i, hi⟩).full_name
             ("error running plugin: " ++ error) (Label.new (0, 0))
           severity := Severity.Error }] ++
        ((self.plugins.drop (i + 1)).map (fun plugin =>
          plugin_diagnostic_output self plugin (from_ast ast) ast_context)).flatten := by
  rw [run_plugins_fst_eq]
  simp only [List.get_eq_getElem] at hfail ⊢
  have hsplit : self.plugins = self.plugins.take i ++
      self.plugins[i] :: self.plugins.drop (i + 1) := by
    rw [← List.drop_eq_getElem_cons hi, List.take_append_drop]
  have hout : plugin_diagnostic_output self (self.plugins[i])
      (from_ast ast) ast_context =
      [{ diagnostic := Diagnostic.new (self.plugins[i]).full_name
           ("error running plugin: " ++ error) (Label.new (0, 0))
         severity := Severity.Error }] := by
    simp [plugin_diagnostic_output, hfail]
  conv_lhs =>
    rw [hsplit, List.map_append, List.map_cons, List.flatten_append, List.flatten_cons, hout]
  simp only [List.append_assoc, List.singleton_append]

theorem run_plugins_failure_isolated_witness :
    (demoChecker.run_plugins (fun _ => ()) [] () ()).1 =
      [] ++
        ((demoChecker.plugins.take 1).map (fun plugin =>
          plugin_diagnostic_output demoChecker plugin () ())).flatten ++
        [{ diagnostic := Diagnostic.new (demoChecker.plugins.get ⟨1, by decide⟩).full_name
             ("error running plugin: " ++ "runtime fault") (Label.new (0, 0))
           severity := Severity.Error }] ++
        ((demoChecker.plugins.drop 2).map (fun plugin =>
          plugin_diagnostic_output demoChecker plugin () ())).flatten :=
  run_plugins_failure_isolated demoChecker (fun _ => ()) [] () () 1 (by decide)
    "runtime fault" rfl

/-- C3: every diagnostic in the merged pre-filter accumulator got its
severity from the resolver: a built-in rule's diagnostic carries the
override for its registry name if present, else its compiled-in default; a
plugin's diagnostic carries the override for the plugin's full name if
present, else its declared default; a synthetic plugin-failure diagnostic
carries Error. -/
theorem diagnostics_severity_resolved (self : Checker V C I Ast LuaAst AstCtx StdLib)
    (from_ast : Ast → LuaAst) (ast : Ast) (ast_context : AstCtx) (cd : CheckerDiagnostic)
    (h : cd ∈ (self.run_plugins from_ast
      (check_rules self ast ast_context self.rules []) ast ast_context).1) :
    (∃ r, r ∈ self.rules ∧ cd.diagnostic ∈ r.1.pass r.2 ast self.context ast_context ∧
      cd.severity = (match alistLookup r.1.name self.config.rules with
        | some variation => variation.to_severity
        | none => r.1.severity)) ∨
    (∃ plugin, plugin ∈ self.plugins ∧
      ∃ ds, plugin.pass (from_ast ast) self.context ast_context = Except.ok ds ∧
        cd.diagnostic ∈ ds ∧
        cd.severity = (match alistLookup plugin.full_name self.config.rules with
          | some variation => variation.to_severity
          | none => plugin.severity)) ∨
    (∃ plugin, plugin ∈ self.plugins ∧
      ∃ error, plugin.pass (from_ast ast) self.context ast_context = Except.error error ∧
        cd.severity = Severity.Error ∧ cd.diagnostic.code = plugin.full_name) := by
  rw [run_plugins_fst_eq, check_rules_eq] at h
  simp only [List.nil_append, List.mem_append, List.mem_flatten, List.mem_map] at h
  rcases h with ⟨l, ⟨r, hr, rfl⟩, hcd⟩ | ⟨l, ⟨p, hp, rfl⟩, hcd⟩
  · obtain ⟨d, hd, rfl⟩ := List.mem_map.mp hcd
    exact Or.inl ⟨r, hr, hd, by simp [Checker.get_lint_severity]⟩
  · unfold plugin_diagnostic_output at hcd
    cases hpass : p.pass (from_ast ast) self.context ast_context with
    | ok ds =>
      rw [hpass] at hcd
      obtain ⟨d, hd, rfl⟩ := List.mem_map.mp hcd
      exact Or.inr (Or.inl ⟨p, hp, ds, hpass, hd, rfl⟩)
    | error err =>
      rw [hpass] at hcd
      simp only [List.mem_singleton] at hcd
      subst hcd
      exact Or.inr (Or.inr ⟨p, hp, err, hpass, rfl, rfl⟩)

theorem diagnostics_severity_resolved_witness :
    (∃ r, r ∈ demoChecker.rules ∧
      (⟨Diagnostic.new "demo_rule" "finding" (Label.new (1, 2)), Severity.Error⟩ :
          CheckerDiagnostic).diagnostic ∈ r.1.pass r.2 () demoChecker.context () ∧
      (⟨Diagnostic.new "demo_rule" "finding" (Label.new (1, 2)), Severity.Error⟩ :
          CheckerDiagnostic).severity =
        (match alistLookup r.1.name demoChecker.config.rules with
          | some variation => variation.to_severity
          | none => r.1.severity)) ∨
    (∃ plugin, plugin ∈ demoChecker.plugins ∧
      ∃ ds, plugin.pass () demoChecker.context () = Except.ok ds ∧
        (⟨Diagnostic.new "demo_rule" "finding" (Label.new (1, 2)), Severity.Error⟩ :
            CheckerDiagnostic).diagnostic ∈ ds ∧
        (⟨Diagnostic.new "demo_rule" "finding" (Label.new (1, 2)), Severity.Error⟩ :
            CheckerDiagnostic).severity =
          (match alistLookup plugin.full_name demoChecker.config.rules with
            | some variation => variation.to_severity
            | none => plugin.severity)) ∨
    (∃ plugin, plugin ∈ demoChecker.plugins ∧
      ∃ error, plugin.pass () demoChecker.context () = Except.error error ∧
        (⟨Diagnostic.new "demo_rule" "finding" (Label.new (1, 2)), Severity.Error⟩ :
            CheckerDiagnostic).severity = Severity.Error ∧
        (⟨Diagnostic.new "demo_rule" "finding" (Label.new (1, 2)), Severity.Error⟩ :
            CheckerDiagnostic).diagnostic.code = plugin.full_name) :=
  diagnostics_severity_resolved demoChecker (fun _ => ()) () ()
    ⟨Diagnostic.new "demo_rule" "finding" (Label.new (1, 2)), Severity.Error⟩ (by decide)

/-- C4: with zero configured plugins the plugin subsystem is a complete
no-op for the file: the accumulated diagnostics are returned unchanged and
the number of bridged-tree constructions is zero. -/
theorem run_plugins_no_plugin_fast_path (self : Checker V C I Ast LuaAst AstCtx StdLib)
    (from_ast : Ast → LuaAst) (diagnostics : List CheckerDiagnostic) (ast : Ast)
    (ast_context : AstCtx) (h : self.plugins = []) :
    self.run_plugins from_ast diagnostics ast ast_context = (diagnostics, 0) := by
  simp [Checker.run_plugins, h]

theorem run_plugins_no_plugin_fast_path_witness :
    demoCheckerNoPlugins.run_plugins (fun _ => ()) [] () () = ([], 0) :=
  run_plugins_no_plugin_fast_path demoCheckerNoPlugins (fun _ => ()) [] () () rfl

/-- C5: the per-file pipeline derives the facts once (`ast_context_of ast`
is the one value every stage consumes), accumulates the built-in rules'
outputs grouped in registry order followed by the plugins' outputs in
declaration order, and applies the filtering overlay strictly last, to the
merged list. -/
theorem test_on_pipeline (self : Checker V C I Ast LuaAst AstCtx StdLib)
    (from_ast : Ast → LuaAst) (ast_context_of : Ast → AstCtx)
    (filter_diagnostics : Ast → List CheckerDiagnostic → Severity → List CheckerDiagnostic)
    (invalid_lint_filter_severity : Severity) (ast : Ast) :
    self.test_on from_ast ast_context_of filter_diagnostics invalid_lint_filter_severity ast =
      filter_diagnostics ast
        ((self.rules.map (fun r =>
            (r.1.pass r.2 ast self.context (ast_context_of ast)).map (fun diagnostic =>
              { diagnostic := diagnostic
                severity := self.get_lint_severity r.1.name r.1.severity }))).flatten ++
          (self.plugins.map (fun plugin =>
            plugin_diagnostic_output self plugin (from_ast ast) (ast_context_of ast))).flatten)
        (self.get_lint_severity "invalid_lint_filter" invalid_lint_filter_severity) :=
  test_on_eq self from_ast ast_context_of filter_diagnostics invalid_lint_filter_severity ast

/-- C6: `RuleVariation::to_severity` maps Allow to Allow, Deny to Error and
Warn to Warning, and the three images are pairwise distinct, so the mapping
is one-to-one over every `RuleVariation` value. -/
theorem rule_variation_to_severity_spec :
    RuleVariation.Allow.to_severity = Severity.Allow ∧
    RuleVariation.Deny.to_severity = Severity.Error ∧
    RuleVariation.Warn.to_severity = Severity.Warning ∧
    (List.map RuleVariation.to_severity
      [RuleVariation.Allow, RuleVariation.Deny, RuleVariation.Warn]).Nodup := by
  decide

/-- C7: per-file analysis is deterministic: repeated runs of `test_on` on
the same tree yield the same diagnostic sequence, and the output depends on
the rules-override map only through its lookup behavior (the sole way the
pipeline consults it), so any two override maps with identical lookups give
identical diagnostic sequences. -/
theorem test_on_deterministic (self : Checker V C I Ast LuaAst AstCtx StdLib)
    (from_ast : Ast → LuaAst) (ast_context_of : Ast → AstCtx)
    (filter_diagnostics : Ast → List CheckerDiagnostic → Severity → List CheckerDiagnostic)
    (invalid_lint_filter_severity : Severity) (ast : Ast)
    (rules₁ rules₂ : List (String × RuleVariation))
    (h : ∀ name, alistLookup name rules₁ = alistLookup name rules₂) :
    Checker.test_on { self with config := { self.config with rules := rules₁ } }
        from_ast ast_context_of filter_diagnostics invalid_lint_filter_severity ast =
      Checker.test_on { self with config := { self.config with rules := rules₂ } }
        from_ast ast_context_of filter_diagnostics invalid_lint_filter_severity ast ∧
    self.test_on from_ast ast_context_of filter_diagnostics invalid_lint_filter_severity ast =
      self.test_on from_ast ast_context_of filter_diagnostics invalid_lint_filter_severity ast := by
  refine ⟨?_, rfl⟩
  rw [test_on_eq, test_on_eq]
  have hsev : ∀ name dflt,
      Checker.get_lint_severity
          { self with config := { self.config with rules := rules₁ } } name dflt =
        Checker.get_lint_severity
          { self with config := { self.config with rules := rules₂ } } name dflt := by
    intro name dflt
    simp [Checker.get_lint_severity, h name]
  have hplug : ∀ (plugin : LuaPlugin LuaAst AstCtx StdLib) (lua_ast : LuaAst)
      (ast_context : AstCtx),
      plugin_diagnostic_output
          { self with config := { self.config with rules := rules₁ } } plugin lua_ast
          ast_context =
        plugin_diagnostic_output
          { self with config := { self.config with rules := rules₂ } } plugin lua_ast
          ast_context := by
    intro plugin lua_ast ast_context
    cases hpass : plugin.pass lua_ast self.context ast_context with
    | ok ds => simp [plugin_diagnostic_output, hpass, h plugin.full_name]
    | error err => simp [plugin_diagnostic_output, hpass]
  simp only [hsev, hplug]

theorem test_on_deterministic_witness :
    Checker.test_on
        { demoChecker with config := { demoChecker.config with
            rules := [("a", RuleVariation.Deny), ("b", RuleVariation.Warn)] } }
        (fun _ => ()) (fun _ => ()) (fun _ d _ => d) Severity.Warning () =
      Checker.test_on
        { demoChecker with config := { demoChecker.config with
            rules := [("b", RuleVariation.Warn), ("a", RuleVariation.Deny)] } }
        (fun _ => ()) (fun _ => ()) (fun _ d _ => d) Severity.Warning () ∧
    demoChecker.test_on (fun _ => ()) (fun _ => ()) (fun _ d _ => d) Severity.Warning () =
      demoChecker.test_on (fun _ => ()) (fun _ => ()) (fun _ d _ => d) Severity.Warning () :=
  test_on_deterministic demoChecker (fun _ => ()) (fun _ => ()) (fun _ d _ => d)
    Severity.Warning () [("a", RuleVariation.Deny), ("b", RuleVariation.Warn)]
    [("b", RuleVariation.Warn), ("a", RuleVariation.Deny)]
    (by
      intro name
      by_cases ha : "a" = name
      · subst ha
        decide
      · by_cases hb : "b" = name
        · subst hb
          decide
        · simp [alistLookup, ha, hb])

/-- C8: a per-check config entry whose key names no registry rule is ignored
by construction: it is never deserialized and never reported, and
`Checker::new` succeeds or fails (with the identical error) exactly as it
would without that entry. -/
theorem checker_new_unknown_key_ignored (registry : List (RuleDef V C I Ast AstCtx StdLib))
    (load : PluginConfig → Except String (LuaPlugin LuaAst AstCtx StdLib))
    (config : CheckerConfig V) (standard_library : StdLib) (key : String) (value : V)
    (h : key ∉ registry.map (fun r => r.name)) :
    errorOf (Checker.new registry load
        { config with config := (key, value) :: config.config } standard_library) =
      errorOf (Checker.new registry load config standard_library) := by
  have hbuild := build_rules_cons_unused registry config.config key value h
  simp only [Checker.new, hbuild]
  cases hb : build_rules registry config.config with
  | error e => simp [errorOf]
  | ok out =>
    simp only
    cases hp : create_plugins_from_config load config.plugins <;> simp [errorOf]

theorem checker_new_unknown_key_ignored_witness :
    errorOf (Checker.new [demoRule] (fun _ => Except.ok demoPluginOk)
        { demoConfig with config := ("unknown_key", 7) :: demoConfig.config } ()) =
      errorOf (Checker.new [demoRule] (fun _ => Except.ok demoPluginOk) demoConfig ()) :=
  checker_new_unknown_key_ignored [demoRule] (fun _ => Except.ok demoPluginOk) demoConfig ()
    "unknown_key" 7 (by decide)

/-- C9: `absolutize_paths` replaces every plugin descriptor's source with the
base joined with that source; joining an absolute path returns it unchanged,
so an absolute plugin source is not confined under the base directory. -/
theorem absolutize_paths_spec (config : CheckerConfig V) (base : FsPath) :
    (config.absolutize_paths base).plugins =
      config.plugins.map (fun plugin => { plugin with source := base.join plugin.source }) ∧
    ∀ plugin, plugin ∈ config.plugins → plugin.source.absolute = true →
      base.join plugin.source = plugin.source := by
  refine ⟨rfl, ?_⟩
  intro plugin _ habs
  simp [FsPath.join, habs]

/-- C10: `rule_exists` holds exactly for the registry's compile-time rule
identifiers (the Roblox pair being present exactly when that feature is
compiled in); in particular it holds for "unused_variable" and
"invalid_lint_filter" and fails for strings outside the registry, such as a
namespaced plugin full name. -/
theorem rule_exists_characterization (roblox : Bool) (name : String) :
    (rule_exists roblox name = true ↔ name ∈ ALL_RULES roblox) ∧
    rule_exists roblox "unused_variable" = true ∧
    rule_exists roblox "invalid_lint_filter" = true ∧
    rule_exists roblox "demo/plugin" = false := by
  refine ⟨?_, ?_, ?_, ?_⟩
  · simp [rule_exists]
  · cases roblox <;> decide
  · cases roblox <;> decide
  · cases roblox <;> decide

end Claims

end Selene
